import Mathlib

/-!
Verification development for the alarm backend (`src/server.js`).

The server ingests MQTT alarm messages, reconciles them into a MongoDB
`alarm` collection (`AlarmLog` model) together with a `Device` registry
collection, and exposes the log via HTTP query routes.  We embed the
persistent state as explicit lists, the MQTT message handler and the HTTP
handlers as pure state transformers, and prove properties about them.

Modelling conventions:
* Mongo collections are `List`s in insertion order; `updateMany` is a `map`,
  `insert`/`save` appends, `find` is `filter`, `findOne` is `find?`.
* Timestamps are kept as the zone-qualified strings the handler builds
  (`"<date>T<time>+09:00"`); `Date` construction is a presentational step
  the properties below never depend on.
* JavaScript `parseInt` is modelled on its decimal inputs (optional sign
  followed by a longest digit prefix); `none` stands for `NaN`.
* A record's `status` is `Option Int` so that the `NaN` a non-numeric code
  field produces can be represented (`none`).
-/

/-- One document of the `alarm` collection (`AlarmSchema`,
`src/server.js` lines 44-53). -/
structure AlarmRecord where
  timestamp : String
  stop_timestamp : Option String := none
  mac_address : String
  ip_address : String
  status : Option Int
  active : Bool
  serial : Option String := none
deriving DecidableEq, Repr

/-- One document of the `Device` registry collection (`DeviceSchema`,
`src/server.js` lines 58-61). -/
structure Device where
  mac_address : String
  serial : String
deriving DecidableEq, Repr

/-- The persistent state the server manipulates: the alarm log and the
device registry. -/
structure ServerState where
  alarm : List AlarmRecord
  devices : List Device
deriving DecidableEq, Repr

/-- The state with both collections empty. -/
def emptyState : ServerState := ⟨[], []⟩

/-- Numeric value of a list of decimal digit characters. -/
def digitsVal (l : List Char) : Nat :=
  l.foldl (fun a c => a * 10 + (c.toNat - 48)) 0

/-- Longest decimal digit prefix of a character list, `none` if empty. -/
def parseDigits (l : List Char) : Option Nat :=
  let d := l.takeWhile Char.isDigit
  if d.isEmpty then none else some (digitsVal d)

/-- JavaScript `parseInt(s)` on its decimal inputs: an optional sign
followed by the longest digit prefix; `none` models `NaN`.  (Leading
whitespace skipping and radix prefixes of `parseInt` are not modelled;
the space-split event fields never carry them.) -/
def jsParseInt (s : String) : Option Int :=
  match s.data with
  | '-' :: rest => (parseDigits rest).map (fun n => -(n : Int))
  | '+' :: rest => (parseDigits rest).map (fun n => (n : Int))
  | l => (parseDigits l).map (fun n => (n : Int))

/-- Split a character list at every single space character, JavaScript
`split(' ')`: consecutive spaces produce empty fields. -/
def splitOnSpace : List Char → List (List Char)
  | [] => [[]]
  | c :: rest =>
    let r := splitOnSpace rest
    if c = ' ' then [] :: r
    else
      match r with
      | [] => [[c]]
      | w :: ws => (c :: w) :: ws

/-- Strip leading and trailing whitespace, JavaScript `trim()`. -/
def trimChars (l : List Char) : List Char :=
  ((l.dropWhile Char.isWhitespace).reverse.dropWhile Char.isWhitespace).reverse

/-- `message.toString().trim().split(' ')` of the MQTT handler
(`src/server.js` lines 106-109). -/
def parseParts (payload : String) : List String :=
  (splitOnSpace (trimChars payload.data)).map (fun l => String.mk l)

/-- JavaScript `x > 0` where `x` may be `NaN` (`none`): `NaN > 0` is false. -/
def jsNumPos (x : Option Int) : Bool :=
  match x with
  | some c => decide (0 < c)
  | none => false

/-- Per-document effect of the `updateMany` inside `handleAlarmClear`: a
record matching the MAC/IP filter and currently active gets
`active := false` and `stop_timestamp := stopTime`; others are untouched. -/
def clearOne (mac ip stopTime : String) (r : AlarmRecord) : AlarmRecord :=
  if r.mac_address == mac && r.ip_address == ip && r.active then
    { r with active := false, stop_timestamp := some stopTime }
  else r

/-- `handleAlarmClear` (`src/server.js` lines 66-75): `updateMany` setting
`active := false` and `stop_timestamp := stopTime` on every record of the
given MAC/IP that is currently active. -/
def handleAlarmClear (mac ip stopTime : String) (log : List AlarmRecord) :
    List AlarmRecord :=
  log.map (clearOne mac ip stopTime)

/-- `Device.findOne({mac_address}).serial` (`src/server.js` lines 130-131):
the registry serial for a MAC, `none` when no device document matches. -/
def lookupSerial (devices : List Device) (mac : String) : Option String :=
  (devices.find? (fun d => d.mac_address == mac)).map (·.serial)

/-- The MQTT message handler (`src/server.js` lines 105-186) as a state
transformer.  The returned `Bool` is `true` exactly on the malformed-message
early return (fewer than 7 space-separated fields, line 111).
`registryFails = true` models `Device.findOne` throwing
(a `StorageReadFailure`): control jumps to the `catch` at line 183 and the
event performs no writes. -/
def processMessageR (registryFails : Bool) (payload : String)
    (st : ServerState) : ServerState × Bool :=
  let parts := parseParts payload
  if parts.length < 7 then (st, true)
  else
    let date_part := parts.getD 0 ""
    let time_part := parts.getD 1 ""
    let mac_address := parts.getD 2 ""
    let ip_address := parts.getD 3 ""
    let flag := jsParseInt (parts.getD 4 "")
    let code := jsParseInt (parts.getD 5 "")
    let real_timestamp := date_part ++ "T" ++ time_part ++ "+09:00"
    if registryFails then (st, false)
    else
      let currentSerial := lookupSerial st.devices mac_address
      if flag == some 0 then
        let cleared := handleAlarmClear mac_address ip_address real_timestamp st.alarm
        if code == some 0 then ({ st with alarm := cleared }, false)
        else
          ({ st with alarm := cleared ++
              [{ timestamp := real_timestamp
               , stop_timestamp := some real_timestamp
               , mac_address := mac_address
               , ip_address := ip_address
               , status := code
               , active := false
               , serial := currentSerial }] }, false)
      else if flag == some 1 && jsNumPos code then
        ({ st with alarm := st.alarm ++
            [{ timestamp := real_timestamp
             , stop_timestamp := none
             , mac_address := mac_address
             , ip_address := ip_address
             , status := code
             , active := true
             , serial := currentSerial }] }, false)
      else (st, false)

/-- The MQTT message handler, state part only. -/
def processMessage (registryFails : Bool) (payload : String)
    (st : ServerState) : ServerState :=
  (processMessageR registryFails payload st).1

/-- A record belongs to the given MAC/IP and is currently active — the
filter `{mac_address, ip_address, active: true}` of `handleAlarmClear`. -/
def activeFor (mac ip : String) (r : AlarmRecord) : Bool :=
  r.mac_address == mac && r.ip_address == ip && r.active

/-- Number of records of the given MAC/IP that are currently active. -/
def countActive (mac ip : String) (log : List AlarmRecord) : Nat :=
  (log.filter (activeFor mac ip)).length

/-- A payload is a clear event for the given MAC/IP: at least 7 fields,
matching MAC and IP, and a transition flag parsing to 0 (any code). -/
def isClearFor (mac ip : String) (payload : String) : Bool :=
  let parts := parseParts payload
  !(decide (parts.length < 7)) && parts.getD 2 "" == mac && parts.getD 3 "" == ip
    && jsParseInt (parts.getD 4 "") == some 0

/-- A payload is a raise event for the given MAC/IP: at least 7 fields,
matching MAC and IP, transition flag parsing to 1 and a positive code. -/
def isRaiseFor (mac ip : String) (payload : String) : Bool :=
  let parts := parseParts payload
  !(decide (parts.length < 7)) && parts.getD 2 "" == mac && parts.getD 3 "" == ip
    && jsParseInt (parts.getD 4 "") == some 1
    && jsNumPos (jsParseInt (parts.getD 5 ""))

/-- Count of raise events for a MAC/IP since its most recent clear event
(from the start of the sequence when there is none). -/
def activeAfter (mac ip : String) (msgs : List String) : Nat :=
  msgs.foldl
    (fun acc m =>
      if isClearFor mac ip m then 0
      else if isRaiseFor mac ip m then acc + 1
      else acc) 0

/-- Per-document effect of the `findOneAndUpdate` of `POST /api/serial`
on a matching device document: its `serial` is replaced. -/
def setSerialD (mac serial : String) (d : Device) : Device :=
  if d.mac_address == mac then { d with serial := serial } else d

/-- Per-document effect of the `updateMany` of `POST /api/serial` on the
alarm collection: records of the MAC get `serial := some serial`. -/
def setSerialA (mac serial : String) (r : AlarmRecord) : AlarmRecord :=
  if r.mac_address == mac then { r with serial := some serial } else r

/-- A record the `updateMany` of `POST /api/serial` actually modifies:
matching MAC and a different `serial` (Mongo's `modifiedCount` counts
these, not all matched documents). -/
def serialStale (mac serial : String) (r : AlarmRecord) : Bool :=
  r.mac_address == mac && r.serial != some serial

/-- The `POST /api/serial` handler (`src/server.js` lines 279-310):
`none` models the 400 response when `mac` or `serial` is missing/empty
(JavaScript falsiness of strings).  Otherwise: `findOneAndUpdate` with
`upsert` on the `Device` collection keyed by `mac`, then `updateMany`
setting `serial` on every alarm record with that MAC.  The returned count
is Mongo's `modifiedCount`: documents the `$set` actually changed, i.e.
whose `serial` differed from the new value. -/
def registerSerial (mac serial : String) (st : ServerState) :
    Option (ServerState × Nat) :=
  if mac == "" || serial == "" then none
  else
    let devices' :=
      if st.devices.any (fun d => d.mac_address == mac) then
        st.devices.map (setSerialD mac serial)
      else st.devices ++ [{ mac_address := mac, serial := serial }]
    let modifiedCount := (st.alarm.filter (serialStale mac serial)).length
    let alarm' := st.alarm.map (setSerialA mac serial)
    some ({ alarm := alarm', devices := devices' }, modifiedCount)

/-- JavaScript truthiness of an optional query-string parameter: present
and not the empty string. -/
def jsTruthy (q : Option String) : Bool :=
  match q with
  | some s => s != ""
  | none => false

/-- `startsWithL s pat`: `pat` is a prefix of `s` (on character lists). -/
def startsWithL : List Char → List Char → Bool
  | _, [] => true
  | [], _ :: _ => false
  | c :: s, d :: p => c == d && startsWithL s p

/-- `containsL s pat`: `pat` occurs as a contiguous run inside `s`. -/
def containsL (s pat : List Char) : Bool :=
  startsWithL s pat ||
    match s with
    | [] => false
    | _ :: rest => containsL rest pat

/-- `new RegExp(pat, 'i').test(s)` for the metacharacter-free patterns the
filter route receives: case-insensitive substring containment. -/
def ciContains (s pat : String) : Bool :=
  containsL (s.data.map Char.toLower) (pat.data.map Char.toLower)

/-- The Mongo query object built by `GET /api/logs/filter`
(`src/server.js` lines 219-233): a field is present only when the
corresponding parameter was set (and, for `mac`/`ip`, truthy). -/
structure FilterQuery where
  mac_address : Option String
  ip_address : Option String
  active : Option Bool
deriving DecidableEq, Repr

/-- Build the filter query from the raw query-string parameters. -/
def buildQuery (mac ip active : Option String) : FilterQuery :=
  { mac_address :=
      match mac with
      | some m => if m != "" then some m else none
      | none => none
  , ip_address :=
      match ip with
      | some i => if i != "" then some i else none
      | none => none
  , active :=
      match active with
      | some a => some (String.mk (a.data.map Char.toLower) == "true")
      | none => none }

/-- `Object.keys(query).length === 0` (`src/server.js` line 235). -/
def queryEmpty (q : FilterQuery) : Bool :=
  q.mac_address.isNone && q.ip_address.isNone && q.active.isNone

/-- Whether an alarm record satisfies every field of the filter query:
case-insensitive regex for MAC, exact match for IP, boolean for active. -/
def queryMatches (q : FilterQuery) (r : AlarmRecord) : Bool :=
  (match q.mac_address with
   | some pat => ciContains r.mac_address pat
   | none => true)
  && (match q.ip_address with
      | some i => r.ip_address == i
      | none => true)
  && (match q.active with
      | some b => r.active == b
      | none => true)

/-- The `GET /api/logs/filter` handler (`src/server.js` lines 218-258) as a
state passer.  `none` in the second component models the 400 `InvalidQuery`
response; otherwise the matching records are returned (the route's
`timestamp`-descending sort is a presentational step not modelled). -/
def listFiltered (mac ip active : Option String) (st : ServerState) :
    ServerState × Option (List AlarmRecord) :=
  let q := buildQuery mac ip active
  if queryEmpty q then (st, none)
  else (st, some (st.alarm.filter (fun r => queryMatches q r)))

/-- Field list of the `select` in `GET /api/logs`
(`src/server.js` line 205). -/
def listAllSelectFields : List String :=
  ["mac_address", "ip_address", "timestamp", "status", "active", "serial"]

/-- Field list of the `select` in `GET /api/logs/filter`
(`src/server.js` line 247). -/
def listFilterSelectFields : List String :=
  ["mac_address", "ip_address", "timestamp", "stop_timestamp", "status",
   "active", "serial"]

/-! ### Concrete states and messages used by witnesses and counterexamples -/

/-- A single active alarm record for device `AA:BB` / `ip1`. -/
def rec0 : AlarmRecord :=
  { timestamp := "2024-01-01T10:00:00+09:00"
  , mac_address := "AA:BB"
  , ip_address := "ip1"
  , status := some 3
  , active := true }

/-- A state holding exactly one active record and an empty registry. -/
def st0 : ServerState := ⟨[rec0], []⟩

/-- The state `st0` after registering serial `SN1` for `AA:BB`. -/
def st0r : ServerState :=
  ⟨[{ rec0 with serial := some "SN1" }], [⟨"AA:BB", "SN1"⟩]⟩

/-! ### Counterexamples -/

/-- C1: the claimed invariant fails on the code: two RAISE events with
code 3 for the same device, processed from the empty log, leave two
records with `active = true` for that (MAC, IP) pair — the flag-1 branch
inserts unconditionally and never closes the previous active record. -/
theorem C1_two_raises_two_active :
    1 < countActive "AA:BB" "ip1"
      ((processMessage false "2024-01-01 10:00:00 AA:BB ip1 1 3 1"
        (processMessage false "2024-01-01 10:00:00 AA:BB ip1 1 3 1"
          emptyState)).alarm) := by decide

/-- C2: a CLEAR event with code 0 is not a no-op: `handleAlarmClear` runs
before the `code === 0` check, so the active record of `st0` is mutated
(`active` becomes `false` and `stop_timestamp` is set). -/
theorem C2_clear_code0_mutates :
    (processMessage false "2024-01-02 11:00:00 AA:BB ip1 0 0 5" st0).alarm
        = [{ rec0 with
             active := false
           , stop_timestamp := some "2024-01-02T11:00:00+09:00" }]
      ∧ (processMessage false "2024-01-02 11:00:00 AA:BB ip1 0 0 5" st0).alarm
        ≠ st0.alarm := by decide

/-- C5: a 7-field message whose transition-flag field `"x"` is not a valid
integer is not rejected by the handler (the early return fires only on
fewer than 7 fields), contradicting the claimed "exactly when". -/
theorem C5_bad_flag_not_rejected :
    (processMessageR false "2024-01-01 10:00:00 AA:BB ip1 x 3 1" emptyState).2
        = false
      ∧ jsParseInt ((parseParts "2024-01-01 10:00:00 AA:BB ip1 x 3 1").getD 4 "")
        = none := by decide

/-- C6: when the registry read fails, a well-formed CLEAR event with
code 3 for a device with an active record changes nothing: the event is
dropped by the `catch`, not processed with an absent serial. -/
theorem C6_read_failure_drops_event :
    processMessage true "2024-01-02 11:00:00 AA:BB ip1 0 3 5" st0 = st0
      ∧ countActive "AA:BB" "ip1" st0.alarm = 1 := by decide

/-- C7: the second identical `registerSerial` call returns
`updatedRecordCount = 0` although one alarm record matches the MAC — the
count is Mongo's `modifiedCount` (records actually changed), not the
matched count. -/
theorem C7_second_call_count_zero :
    registerSerial "AA:BB" "SN1" st0 = some (st0r, 1)
      ∧ registerSerial "AA:BB" "SN1" st0r = some (st0r, 0)
      ∧ (st0r.alarm.filter (fun r => r.mac_address == "AA:BB")).length = 1 := by
  decide

/-- C8: supplying `mac` as the empty string (with `ip` and `active`
absent) is a supplied filter, yet the route answers `InvalidQuery`
(JavaScript falsiness drops the empty string from the query object). -/
theorem C8_empty_mac_rejected :
    (listFiltered (some "") none none st0).2 = none
      ∧ (some "" : Option String) ≠ none := by decide

/-! ### Easy confirmed facts -/

/-- C10: the `GET /api/logs` projection omits `stop_timestamp`, the
`GET /api/logs/filter` projection includes it, and the two projections
agree on every other field. -/
theorem C10_select_field_lists :
    listAllSelectFields.contains "stop_timestamp" = false
      ∧ listFilterSelectFields.contains "stop_timestamp" = true
      ∧ listAllSelectFields.all (fun f => listFilterSelectFields.contains f) = true
      ∧ listFilterSelectFields.all
          (fun f => f == "stop_timestamp" || listAllSelectFields.contains f)
        = true := by decide

/-! ### Message handler lemmas and amended-claim theorems -/

/-- The malformed-message indicator of the handler is exactly the
fewer-than-7-fields test of `src/server.js` line 111. -/
theorem processMessageR_snd (b : Bool) (payload : String) (st : ServerState) :
    (processMessageR b payload st).2 = decide ((parseParts payload).length < 7) := by
  unfold processMessageR
  by_cases h7 : (parseParts payload).length < 7
  · simp [h7]
  · simp only [if_neg h7, decide_eq_false h7]
    cases b
    · simp only [Bool.false_eq_true, if_false]
      split
      · split <;> rfl
      · split <;> rfl
    · rfl

/-- C6 (amended): when the registry read throws during serial lookup, the
handler's `catch` swallows the error and the event is dropped whole — no
record is closed, no record is inserted, the state is unchanged (the
stream itself continues). -/
theorem C6_read_failure_state_unchanged (payload : String) (st : ServerState) :
    processMessage true payload st = st := by
  unfold processMessage processMessageR
  by_cases h7 : (parseParts payload).length < 7 <;> simp [h7]

/-- C5 (amended): the handler rejects a message exactly when it has fewer
than 7 space-separated fields, and a rejected message leaves the state
unchanged; a non-integer transition-flag or code field does not cause
rejection. -/
theorem C5_reject_iff_short (b : Bool) (payload : String) (st : ServerState) :
    ((processMessageR b payload st).2 = true ↔ (parseParts payload).length < 7)
      ∧ ((parseParts payload).length < 7 → processMessage b payload st = st) := by
  constructor
  · rw [processMessageR_snd]; simp
  · intro h7
    unfold processMessage processMessageR
    simp [h7]

/-- Witness for `C5_reject_iff_short` at a 2-field message and `st0`. -/
theorem C5_reject_iff_short_witness :
    ((processMessageR false "too short" st0).2 = true
        ↔ (parseParts "too short").length < 7)
      ∧ ((parseParts "too short").length < 7
        → processMessage false "too short" st0 = st0) :=
  C5_reject_iff_short false "too short" st0

/-- C9: a message with at least 7 fields whose transition flag parses to
an integer other than 0 and 1 takes neither the clear branch nor the raise
branch: the state is unchanged whatever the code field holds. -/
theorem C9_unknown_flag_no_op (b : Bool) (payload : String) (st : ServerState)
    (f : Int) (h7 : ¬ (parseParts payload).length < 7)
    (hf : jsParseInt ((parseParts payload).getD 4 "") = some f)
    (h0 : f ≠ 0) (h1 : f ≠ 1) :
    processMessage b payload st = st := by
  unfold processMessage processMessageR
  cases b
  · simp only [if_neg h7, Bool.false_eq_true, if_false]
    simp at hf
    simp [hf, h0, h1]
  · simp [if_neg h7]

/-- Witness for `C9_unknown_flag_no_op`: flag 2 with code 3. -/
theorem C9_unknown_flag_no_op_witness :
    processMessage false "2024-01-01 10:00:00 AA:BB ip1 2 3 1" st0 = st0 :=
  C9_unknown_flag_no_op false "2024-01-01 10:00:00 AA:BB ip1 2 3 1" st0 2
    (by decide) (by decide) (by decide) (by decide)

/-- C2 (amended): a CLEAR event with code 0 inserts no record (the log
keeps its length) and leaves the registry untouched, but it does run
`handleAlarmClear` first: every active record of the event's MAC/IP is
closed with `stop_timestamp = occurredAt`; only the save of a clearance
record is skipped. -/
theorem C2_clear_code0_closes_actives (payload : String) (st : ServerState)
    (h7 : ¬ (parseParts payload).length < 7)
    (hf : jsParseInt ((parseParts payload).getD 4 "") = some 0)
    (hc : jsParseInt ((parseParts payload).getD 5 "") = some 0) :
    processMessage false payload st =
        ServerState.mk
          (handleAlarmClear ((parseParts payload).getD 2 "")
            ((parseParts payload).getD 3 "")
            ((parseParts payload).getD 0 "" ++ "T"
              ++ (parseParts payload).getD 1 "" ++ "+09:00")
            st.alarm)
          st.devices
      ∧ (processMessage false payload st).alarm.length = st.alarm.length := by
  have hmain : processMessage false payload st =
      ServerState.mk
        (handleAlarmClear ((parseParts payload).getD 2 "")
          ((parseParts payload).getD 3 "")
          ((parseParts payload).getD 0 "" ++ "T"
            ++ (parseParts payload).getD 1 "" ++ "+09:00")
          st.alarm)
        st.devices := by
    unfold processMessage processMessageR
    simp only [if_neg h7, Bool.false_eq_true, if_false]
    simp at hf hc
    simp [hf, hc]
  refine ⟨hmain, ?_⟩
  rw [hmain]
  simp [handleAlarmClear]

/-- Witness for `C2_clear_code0_closes_actives` at a CLEAR/0 event on `st0`. -/
theorem C2_clear_code0_closes_actives_witness :
    processMessage false "2024-01-02 11:00:00 AA:BB ip1 0 0 5" st0 =
        ServerState.mk
          (handleAlarmClear "AA:BB" "ip1" "2024-01-02T11:00:00+09:00" st0.alarm)
          st0.devices
      ∧ (processMessage false "2024-01-02 11:00:00 AA:BB ip1 0 0 5" st0).alarm.length
        = st0.alarm.length :=
  C2_clear_code0_closes_actives "2024-01-02 11:00:00 AA:BB ip1 0 0 5" st0
    (by decide) (by decide) (by decide)

/-- C3: a CLEAR event whose code parses to a positive integer closes every
active record of its MAC/IP (via `handleAlarmClear`, which sets
`active := false` and `stop_timestamp := occurredAt` on each of them) and
appends exactly one clearance record with
`timestamp = stop_timestamp = occurredAt`, `status` the event's code,
`active = false` and the resolved serial — also when no record was active,
since the insertion is unconditional. -/
theorem C3_clear_codePos (payload : String) (st : ServerState) (c : Int)
    (h7 : ¬ (parseParts payload).length < 7)
    (hf : jsParseInt ((parseParts payload).getD 4 "") = some 0)
    (hc : jsParseInt ((parseParts payload).getD 5 "") = some c)
    (hpos : 0 < c) :
    processMessage false payload st =
      ServerState.mk
        (handleAlarmClear ((parseParts payload).getD 2 "")
            ((parseParts payload).getD 3 "")
            ((parseParts payload).getD 0 "" ++ "T"
              ++ (parseParts payload).getD 1 "" ++ "+09:00")
            st.alarm
          ++ [AlarmRecord.mk
                ((parseParts payload).getD 0 "" ++ "T"
                  ++ (parseParts payload).getD 1 "" ++ "+09:00")
                (some ((parseParts payload).getD 0 "" ++ "T"
                  ++ (parseParts payload).getD 1 "" ++ "+09:00"))
                ((parseParts payload).getD 2 "")
                ((parseParts payload).getD 3 "")
                (some c) false
                (lookupSerial st.devices ((parseParts payload).getD 2 ""))])
        st.devices := by
  have hc0 : ¬ jsParseInt ((parseParts payload).getD 5 "") = some 0 := by
    rw [hc]
    intro h
    injection h with h'
    omega
  unfold processMessage processMessageR
  simp only [if_neg h7, Bool.false_eq_true, if_false]
  simp at hf hc hc0
  simp [hf, hc, hc0, hpos.ne']

/-- Witness for `C3_clear_codePos`: a CLEAR/3 event on the one-active
state `st0`. -/
theorem C3_clear_codePos_witness :
    processMessage false "2024-01-01 10:05:00 AA:BB ip1 0 3 1" st0 =
      ServerState.mk
        (handleAlarmClear "AA:BB" "ip1" "2024-01-01T10:05:00+09:00" st0.alarm
          ++ [AlarmRecord.mk "2024-01-01T10:05:00+09:00"
                (some "2024-01-01T10:05:00+09:00") "AA:BB" "ip1"
                (some 3) false (lookupSerial st0.devices "AA:BB")])
        st0.devices :=
  C3_clear_codePos "2024-01-01 10:05:00 AA:BB ip1 0 3 1" st0 3
    (by decide) (by decide) (by decide) (by decide)

/-- C4: a RAISE event with a positive code appends exactly one new record
with `active := true`, `timestamp = occurredAt` and no `stop_timestamp`,
never touching existing records (so a duplicate RAISE yields a second,
distinct row); a RAISE with code 0 leaves the state unchanged. -/
theorem C4_raise_inserts (payload : String) (st : ServerState)
    (h7 : ¬ (parseParts payload).length < 7)
    (hf : jsParseInt ((parseParts payload).getD 4 "") = some 1) :
    (∀ c : Int, jsParseInt ((parseParts payload).getD 5 "") = some c → 0 < c →
        processMessage false payload st =
          ServerState.mk
            (st.alarm
              ++ [AlarmRecord.mk
                    ((parseParts payload).getD 0 "" ++ "T"
                      ++ (parseParts payload).getD 1 "" ++ "+09:00")
                    none
                    ((parseParts payload).getD 2 "")
                    ((parseParts payload).getD 3 "")
                    (some c) true
                    (lookupSerial st.devices ((parseParts payload).getD 2 ""))])
            st.devices)
      ∧ (jsParseInt ((parseParts payload).getD 5 "") = some 0 →
          processMessage false payload st = st) := by
  constructor
  · intro c hc hcpos
    unfold processMessage processMessageR
    simp only [if_neg h7, Bool.false_eq_true, if_false]
    simp at hf hc
    simp [hf, hc, jsNumPos, hcpos]
  · intro hc
    unfold processMessage processMessageR
    simp only [if_neg h7, Bool.false_eq_true, if_false]
    simp at hf hc
    simp [hf, hc, jsNumPos]

/-- Witness for `C4_raise_inserts`: a RAISE/3 event on `st0`. -/
theorem C4_raise_inserts_witness :
    (∀ c : Int,
        jsParseInt ((parseParts "2024-01-01 10:00:00 AA:BB ip1 1 3 1").getD 5 "")
            = some c → 0 < c →
        processMessage false "2024-01-01 10:00:00 AA:BB ip1 1 3 1" st0 =
          ServerState.mk
            (st0.alarm
              ++ [AlarmRecord.mk "2024-01-01T10:00:00+09:00" none "AA:BB" "ip1"
                    (some c) true (lookupSerial st0.devices "AA:BB")])
            st0.devices)
      ∧ (jsParseInt ((parseParts "2024-01-01 10:00:00 AA:BB ip1 1 3 1").getD 5 "")
            = some 0 →
          processMessage false "2024-01-01 10:00:00 AA:BB ip1 1 3 1" st0 = st0) :=
  C4_raise_inserts "2024-01-01 10:00:00 AA:BB ip1 1 3 1" st0 (by decide) (by decide)

/-- C8 (amended): the filter route answers `InvalidQuery` exactly when
`mac` and `ip` are each absent or empty (JavaScript-falsy) and `active` is
absent — an empty-string `active` still counts as a filter; the route
never changes the state, and on success it returns exactly the records
matching the built query. -/
theorem C8_filter_route (mac ip active : Option String) (st : ServerState) :
    ((listFiltered mac ip active st).2 = none
        ↔ (jsTruthy mac = false ∧ jsTruthy ip = false ∧ active = none))
      ∧ (listFiltered mac ip active st).1 = st
      ∧ ((listFiltered mac ip active st).2 = none
          ∨ (listFiltered mac ip active st).2
            = some (st.alarm.filter (fun r => queryMatches (buildQuery mac ip active) r))) := by
  have hq : (queryEmpty (buildQuery mac ip active) = true)
      ↔ (jsTruthy mac = false ∧ jsTruthy ip = false ∧ active = none) := by
    rcases mac with _ | m <;> rcases ip with _ | i <;> rcases active with _ | a <;>
      simp only [queryEmpty, buildQuery, jsTruthy] <;>
      (try split_ifs) <;> simp_all
  refine ⟨?_, ?_, ?_⟩
  · constructor
    · intro h2
      by_cases hqe : queryEmpty (buildQuery mac ip active) = true
      · exact hq.mp hqe
      · simp only [Bool.not_eq_true] at hqe
        simp [listFiltered, hqe] at h2
    · intro h
      have hqe := hq.mpr h
      simp [listFiltered, hqe]
  · by_cases hqe : queryEmpty (buildQuery mac ip active) = true
    · simp [listFiltered, hqe]
    · simp only [Bool.not_eq_true] at hqe
      simp [listFiltered, hqe]
  · by_cases hqe : queryEmpty (buildQuery mac ip active) = true
    · exact Or.inl (by simp [listFiltered, hqe])
    · simp only [Bool.not_eq_true] at hqe
      exact Or.inr (by simp [listFiltered, hqe])

/-- Witness for `C8_filter_route` at `mac = "AA"` on `st0`. -/
theorem C8_filter_route_witness :
    ((listFiltered (some "AA") none none st0).2 = none
        ↔ (jsTruthy (some "AA") = false ∧ jsTruthy none = false
           ∧ (none : Option String) = none))
      ∧ (listFiltered (some "AA") none none st0).1 = st0
      ∧ ((listFiltered (some "AA") none none st0).2 = none
          ∨ (listFiltered (some "AA") none none st0).2
            = some (st0.alarm.filter
                (fun r => queryMatches (buildQuery (some "AA") none none) r))) :=
  C8_filter_route (some "AA") none none st0

/-! ### Registry back-fill lemmas -/

/-- Filtering the image of a map when the predicate after the map is a
constant conjunct of the predicate before it. -/
theorem length_filter_map_and {α : Type} (p : α → Bool) (f : α → α) (c : Bool)
    (h : ∀ a, p (f a) = (c && p a)) (l : List α) :
    ((l.map f).filter p).length = if c then (l.filter p).length else 0 := by
  induction l with
  | nil => cases c <;> simp
  | cons a l ih =>
    simp only [List.map_cons, List.filter_cons, h a]
    cases c <;> cases hpa : p a <;> simp_all

/-- Mapping an idempotent function twice is mapping it once. -/
theorem map_map_idem {α : Type} (f : α → α) (hf : ∀ a, f (f a) = f a)
    (l : List α) : (l.map f).map f = l.map f := by
  induction l with
  | nil => rfl
  | cons a l ih => simp [hf, ih]

/-- `setSerialD` keeps the MAC of a device document. -/
theorem setSerialD_mac (mac serial : String) (d : Device) :
    (setSerialD mac serial d).mac_address = d.mac_address := by
  unfold setSerialD
  split <;> rfl

/-- `setSerialD` is idempotent on one document. -/
theorem setSerialD_idem (mac serial : String) (d : Device) :
    setSerialD mac serial (setSerialD mac serial d) = setSerialD mac serial d := by
  unfold setSerialD
  by_cases h : (d.mac_address == mac) = true <;> simp [h]

/-- `setSerialA` keeps the MAC of an alarm record. -/
theorem setSerialA_mac (mac serial : String) (r : AlarmRecord) :
    (setSerialA mac serial r).mac_address = r.mac_address := by
  unfold setSerialA
  split <;> rfl

/-- `setSerialA` is idempotent on one record. -/
theorem setSerialA_idem (mac serial : String) (r : AlarmRecord) :
    setSerialA mac serial (setSerialA mac serial r) = setSerialA mac serial r := by
  unfold setSerialA
  by_cases h : (r.mac_address == mac) = true <;> simp [h]

/-- After the back-fill, no record of the MAC still has a stale serial. -/
theorem serialStale_after (mac serial : String) (r : AlarmRecord) :
    serialStale mac serial (setSerialA mac serial r) = false := by
  unfold serialStale setSerialA
  by_cases h : (r.mac_address == mac) = true <;> simp [h]

/-- The MAC-membership test is unchanged by the serial back-fill. -/
theorem any_mac_map (mac serial : String) (l : List Device) :
    (l.map (setSerialD mac serial)).any (fun d => d.mac_address == mac)
      = l.any (fun d => d.mac_address == mac) := by
  induction l with
  | nil => rfl
  | cons d l ih => simp [setSerialD_mac, ih]

/-- When no device document matches the MAC, the registry map is the
identity. -/
theorem map_setSerialD_id (mac serial : String) (l : List Device)
    (h : l.any (fun d => d.mac_address == mac) = false) :
    l.map (setSerialD mac serial) = l := by
  induction l with
  | nil => rfl
  | cons d l ih =>
    simp only [List.any_cons, Bool.or_eq_false_iff] at h
    simp only [List.map_cons, ih h.2]
    unfold setSerialD
    simp [h.1]

/-- C7 (amended): `registerSerial` is an idempotent upsert keyed by MAC —
repeating the call with the same arguments leaves the whole state
(registry and alarm log) unchanged — and it back-fills the serial onto
every alarm record of that MAC; the returned count, however, is Mongo's
`modifiedCount`, so the repeat call reports 0 rather than the number of
records matched by the MAC. -/
theorem C7_registerSerial_idem (mac serial : String) (st st₁ : ServerState)
    (n₁ : Nat) (h : registerSerial mac serial st = some (st₁, n₁)) :
    registerSerial mac serial st₁ = some (st₁, 0)
      ∧ ∀ r ∈ st₁.alarm, r.mac_address = mac → r.serial = some serial := by
  by_cases hg : (mac == "" || serial == "") = true
  · rw [registerSerial, if_pos hg] at h
    cases h
  · rw [registerSerial] at h
    simp only [if_neg hg] at h
    injection h with h'
    injection h' with hst hn
    subst hst
    constructor
    · rw [registerSerial]
      simp only [if_neg hg]
      have hcount : ((st.alarm.map (setSerialA mac serial)).filter
          (serialStale mac serial)).length = 0 := by
        rw [length_filter_map_and (serialStale mac serial) (setSerialA mac serial)
          false (fun a => by simp [serialStale_after]) st.alarm]
        simp
      have halarm : ((st.alarm.map (setSerialA mac serial)).map
          (setSerialA mac serial)) = st.alarm.map (setSerialA mac serial) :=
        map_map_idem _ (setSerialA_idem mac serial) st.alarm
      by_cases hA : st.devices.any (fun d => d.mac_address == mac) = true
      · simp only [hA, if_true]
        have h1 : ((st.devices.map (setSerialD mac serial)).any
            (fun d => d.mac_address == mac)) = true := by
          rw [any_mac_map]; exact hA
        simp only [h1, if_true, hcount, halarm,
          map_map_idem _ (setSerialD_idem mac serial) st.devices]
      · simp only [Bool.not_eq_true] at hA
        simp only [hA, Bool.false_eq_true, if_false]
        have h1 : ((st.devices ++ [Device.mk mac serial]).any
            (fun d => d.mac_address == mac)) = true := by
          simp
        simp only [h1, if_true, hcount, halarm, List.map_append,
          map_setSerialD_id mac serial st.devices hA]
        have h2 : setSerialD mac serial (Device.mk mac serial)
            = Device.mk mac serial := by
          unfold setSerialD
          simp
        simp [h2]
    · intro r hr hmac
      simp only [List.mem_map] at hr
      obtain ⟨r₀, _, rfl⟩ := hr
      by_cases hm : (r₀.mac_address == mac) = true
      · simp [setSerialA, hm]
      · rw [setSerialA_mac] at hmac
        simp [hmac] at hm

/-- Witness for `C7_registerSerial_idem`: registering `SN1` for `AA:BB`
on `st0` yields `st0r` with count 1; the repeat call is the identity with
count 0. -/
theorem C7_registerSerial_idem_witness :
    registerSerial "AA:BB" "SN1" st0r = some (st0r, 0)
      ∧ ∀ r ∈ st0r.alarm, r.mac_address = "AA:BB" → r.serial = some "SN1" :=
  C7_registerSerial_idem "AA:BB" "SN1" st0 st0r 1 (by decide)

/-! ### The active-count characterization -/

/-- Effect of one `clearOne` on the active predicate of an observed
MAC/IP: clearing that same pair kills it, clearing another pair preserves
it. -/
theorem activeFor_clearOne (mac ip mac' ip' t : String) (r : AlarmRecord) :
    activeFor mac ip (clearOne mac' ip' t r)
      = ((!(mac' == mac && ip' == ip)) && activeFor mac ip r) := by
  unfold activeFor clearOne
  by_cases h1 : r.mac_address = mac' <;> by_cases h2 : r.ip_address = ip' <;>
    by_cases h3 : r.active = true <;> by_cases h4 : mac' = mac <;>
      by_cases h5 : ip' = ip <;> simp_all

/-- `countActive` distributes over append. -/
theorem countActive_append (mac ip : String) (l₁ l₂ : List AlarmRecord) :
    countActive mac ip (l₁ ++ l₂)
      = countActive mac ip l₁ + countActive mac ip l₂ := by
  simp [countActive, List.filter_append]

/-- `handleAlarmClear` zeroes the active count of the cleared MAC/IP and
preserves the count of every other pair. -/
theorem countActive_handleAlarmClear (mac ip mac' ip' t : String)
    (log : List AlarmRecord) :
    countActive mac ip (handleAlarmClear mac' ip' t log)
      = if (mac' == mac && ip' == ip) = true then 0
        else countActive mac ip log := by
  unfold countActive handleAlarmClear
  rw [length_filter_map_and (activeFor mac ip) (clearOne mac' ip' t)
    (!(mac' == mac && ip' == ip)) (activeFor_clearOne mac ip mac' ip' t) log]
  cases h : (mac' == mac && ip' == ip) <;> simp [h]

/-- Effect of one handled message on a device's active count: a clear
event for that MAC/IP zeroes it, a raise event for it adds one, any other
message (including events for other devices, unknown flags, malformed
messages and clearance-record inserts) leaves it unchanged. -/
theorem countActive_step (mac ip payload : String) (st : ServerState) :
    countActive mac ip ((processMessage false payload st).alarm)
      = if isClearFor mac ip payload = true then 0
        else if isRaiseFor mac ip payload = true then
          countActive mac ip st.alarm + 1
        else countActive mac ip st.alarm := by
  unfold processMessage processMessageR isClearFor isRaiseFor
  by_cases h7 : (parseParts payload).length < 7
  · simp [h7]
  · simp only [if_neg h7, Bool.false_eq_true, if_false, decide_eq_false h7,
      Bool.not_false, Bool.true_and]
    by_cases hf0 : jsParseInt ((parseParts payload).getD 4 "") = some 0
    · have hf1 : (jsParseInt ((parseParts payload).getD 4 "") == some 1) = false := by
        rw [hf0]
        decide
      simp only [hf0, beq_self_eq_true, if_true, hf1, Bool.false_and,
        Bool.and_false, Bool.false_eq_true, if_false]
      by_cases hc0 : (jsParseInt ((parseParts payload).getD 5 "") == some 0) = true
      · simp only [hc0, if_true]
        rw [countActive_handleAlarmClear]
        by_cases hm : (((parseParts payload).getD 2 "" == mac)
            && ((parseParts payload).getD 3 "" == ip)) = true
        · simp [hm]
        · simp only [Bool.not_eq_true] at hm
          simp [hm, Bool.and_assoc]
      · simp only [Bool.not_eq_true] at hc0
        simp only [hc0, Bool.false_eq_true, if_false]
        rw [countActive_append, countActive_handleAlarmClear]
        have hone : countActive mac ip
            [{ timestamp := (parseParts payload).getD 0 "" ++ "T"
                  ++ (parseParts payload).getD 1 "" ++ "+09:00"
             , stop_timestamp := some ((parseParts payload).getD 0 "" ++ "T"
                  ++ (parseParts payload).getD 1 "" ++ "+09:00")
             , mac_address := (parseParts payload).getD 2 ""
             , ip_address := (parseParts payload).getD 3 ""
             , status := jsParseInt ((parseParts payload).getD 5 "")
             , active := false
             , serial := lookupSerial st.devices ((parseParts payload).getD 2 "") }]
            = 0 := by
          simp [countActive, activeFor]
        rw [hone]
        by_cases hm : (((parseParts payload).getD 2 "" == mac)
            && ((parseParts payload).getD 3 "" == ip)) = true
        · simp [hm]
        · simp only [Bool.not_eq_true] at hm
          simp [hm, Bool.and_assoc]
    · have hf0' : (jsParseInt ((parseParts payload).getD 4 "") == some 0) = false := by
        simpa using hf0
      simp only [hf0', Bool.false_eq_true, if_false, Bool.and_false,
        Bool.false_and]
      by_cases hf1 : jsParseInt ((parseParts payload).getD 4 "") = some 1
      · by_cases hp : jsNumPos (jsParseInt ((parseParts payload).getD 5 "")) = true
        · by_cases hm : ((parseParts payload).getD 2 "" == mac) = true <;>
            by_cases hi : ((parseParts payload).getD 3 "" == ip) = true <;>
              simp_all [countActive, activeFor, List.filter_append]
        · simp_all [countActive, activeFor]
      · simp_all [countActive, activeFor]

/-- Folding the handler over a message sequence folds the per-message
count transformation over the same sequence. -/
theorem countActive_foldl (mac ip : String) (msgs : List String)
    (st : ServerState) :
    countActive mac ip
        ((msgs.foldl (fun s m => processMessage false m s) st).alarm)
      = msgs.foldl
          (fun acc m =>
            if isClearFor mac ip m = true then 0
            else if isRaiseFor mac ip m = true then acc + 1 else acc)
          (countActive mac ip st.alarm) := by
  induction msgs generalizing st with
  | nil => rfl
  | cons m rest ih =>
    simp only [List.foldl_cons]
    rw [ih, countActive_step]

/-- C1 (amended): after any sequence of messages processed from the empty
log, the number of records with `active = true` for a (MAC, IP) pair is
the number of RAISE events with positive code for that pair since its most
recent CLEAR (flag 0) event; in particular duplicate RAISEs without an
intervening CLEAR leave several simultaneously active records — the
at-most-one invariant holds only for sequences that never repeat a RAISE
before the matching CLEAR. -/
theorem C1_active_count_characterization (mac ip : String)
    (msgs : List String) :
    countActive mac ip
        ((msgs.foldl (fun s m => processMessage false m s) emptyState).alarm)
      = activeAfter mac ip msgs := by
  rw [countActive_foldl]
  rfl
